import Mathlib

/-
Shallow embedding of the DataGrid state machine from
src/src/datagrid/DataGrid.tsx (clarity-react).

Conventions of the embedding:
* JavaScript numbers used as integers become Int; Math.floor of a division by a
  positive divisor is Int.fdiv (floor division).
* Optional TypeScript fields become Option.
* Injected async callbacks (getPageData, sortFunction, onRowExpand) are not part
  of the data model; a callback value is represented by an opaque Nat identifier
  when only its presence or identity matters, and the value an invocation would
  resolve with is passed to the embedded operation as an extra argument.  An
  operation that awaits a callback is collapsed to its final state; a Bool
  result records whether the callback was invoked where a claim needs it.
* React setState merging is modelled by returning the updated DataGridState.
-/

/-- Enum SortOrder from DataGrid.tsx (DESC, ASC, NONE). -/
inductive SortOrder where
  | desc
  | asc
  | none
deriving DecidableEq

/-- DataGridSort: sort metadata of a column.  The injected sortFunction is
represented by the opaque identifier sortFunctionId. -/
structure DataGridSort where
  defaultSortOrder : SortOrder
  isSorted : Option Bool
  sortFunctionId : Nat
deriving DecidableEq

/-- DataGridCell: cellData is opaque renderable data, modelled by a Nat. -/
structure DataGridCell where
  cellData : Nat
  columnName : String
deriving DecidableEq

/-- expandableRowDetails: expandable-row state of a row.  The injected
onRowExpand loader is represented by the opaque identifier onRowExpandId
(Option.none means no loader is configured); loaded content is opaque,
modelled by a Nat. -/
structure ExpandableRowDetails where
  isLoading : Option Bool
  onRowExpandId : Option Nat
  expandableContent : Option Nat
  isExpanded : Option Bool
  hideRowExpandIcon : Option Bool
deriving DecidableEq

/-- DataGridRow from DataGrid.tsx. -/
structure DataGridRow where
  rowData : List DataGridCell
  rowID : Option Nat
  isSelected : Option Bool
  expandableRowData : Option ExpandableRowDetails
  disableRowSelection : Option Bool
deriving DecidableEq

/-- DataGridColumn from DataGrid.tsx (presentation-only fields omitted). -/
structure DataGridColumn where
  columnName : String
  columnID : Option Nat
  sort : Option DataGridSort
  isVisible : Option Bool
  width : Option Int
deriving DecidableEq

/-- DataGridPaginationState from DataGrid.tsx. -/
structure DataGridPaginationState where
  currentPage : Int
  pageSize : Int
  totalItems : Int
  firstItem : Int
  lastItem : Int
  totalPages : Int
  pageSizes : Option (List Int)
  compactFooter : Bool
deriving DecidableEq

/-- DataGridPaginationProps from DataGrid.tsx; the optional getPageData
callback is represented by the flag hasGetPageData. -/
structure DataGridPaginationProps where
  currentPage : Option Int
  pageSize : Option Int
  totalItems : Option Int
  pageSizes : Option (List Int)
  compactFooter : Option Bool
  hasGetPageData : Bool
deriving DecidableEq

/-- DataGridState from DataGrid.tsx. -/
structure DataGridState where
  selectAll : Bool
  allColumns : List DataGridColumn
  allRows : List DataGridRow
  itemText : String
  pagination : Option DataGridPaginationState
  isLoading : Bool
deriving DecidableEq

/-- getTotalPages (DataGrid.tsx lines 457-459):
Math.floor((totalItems + pageSize - 1) / pageSize). -/
def getTotalPages (totalItems pageSize : Int) : Int :=
  Int.fdiv (totalItems + pageSize - 1) pageSize

/-- getFirstItemIndex (DataGrid.tsx lines 462-464):
page * pageSize - (pageSize - 1). -/
def getFirstItemIndex (page pageSize : Int) : Int :=
  page * pageSize - (pageSize - 1)

/-- getLastItemIndex (DataGrid.tsx lines 467-469):
Math.min(firstItem + pageSize - 1, totalItems). -/
def getLastItemIndex (pageSize totalItems firstItem : Int) : Int :=
  min (firstItem + pageSize - 1) totalItems

/-- Initial pagination sub-state built in the state initializer
(DataGrid.tsx lines 278-295): defaults currentPage to 1, pageSize to 10,
totalItems to 0, compactFooter to false; firstItem and lastItem start at 0 and
totalPages at 1 until setInitalStateForPagination runs. -/
def initPaginationState (props : DataGridPaginationProps) : DataGridPaginationState where
  currentPage := props.currentPage.getD 1
  pageSize := props.pageSize.getD 10
  totalItems := props.totalItems.getD 0
  firstItem := 0
  lastItem := 0
  totalPages := 1
  pageSizes := props.pageSizes
  compactFooter := props.compactFooter.getD false

/-- setInitalStateForPagination (DataGrid.tsx lines 441-454): recomputes the
derived pagination fields from currentPage, pageSize and totalItems.  The
compactFooter reassignment on line 451 is the identity here because the state
initializer already defaulted it to false. -/
def setInitalStateForPagination (pg : DataGridPaginationState) : DataGridPaginationState :=
  let firstItem := getFirstItemIndex pg.currentPage pg.pageSize
  let lastItem := getLastItemIndex pg.pageSize pg.totalItems firstItem
  { pg with
    totalPages := getTotalPages pg.totalItems pg.pageSize
    firstItem := firstItem
    lastItem := lastItem }

/-- updateRowIDs (DataGrid.tsx lines 691-700): sets rowID to the index in the
array; the JS guard returns the list unchanged when it is empty. -/
def updateRowIDs (rows : List DataGridRow) : List DataGridRow :=
  if rows.length ≠ 0 then
    rows.mapIdx fun index row => { row with rowID := some index }
  else rows

/-- updateColumnIDs (DataGrid.tsx lines 702-708): sets columnID to the index in
the array. -/
def updateColumnIDs (columns : List DataGridColumn) : List DataGridColumn :=
  columns.mapIdx fun index column => { column with columnID := some index }

/-- setColumnVisibility (DataGrid.tsx lines 710-716): defaults isVisible to
true when it is not provided. -/
def setColumnVisibility (columns : List DataGridColumn) : List DataGridColumn :=
  columns.map fun column => { column with isVisible := some (column.isVisible.getD true) }

/-- getSelectionEnabledRows (DataGrid.tsx lines 322-324): rows whose
disableRowSelection is falsy (absent or false). -/
def getSelectionEnabledRows (allRows : List DataGridRow) : List DataGridRow :=
  allRows.filter fun row => !(row.disableRowSelection.getD false)

/-- Modelled from the spec: allTrueOnKey is imported from src/utils, a file that
is not part of this repository snapshot.  Per the spec (section 4.3) it checks
that every row of the given list has the keyed flag equal to true; here it is
specialised to the isSelected key it is called with (DataGrid.tsx line 330). -/
def allTrueOnKey (rows : List DataGridRow) : Bool :=
  rows.all fun row => row.isSelected == some true

/-- isAllRowsSelected (DataGrid.tsx lines 327-333): true when the
selection-enabled rows are non-empty and allTrueOnKey holds on them, false
otherwise. -/
def isAllRowsSelected (allRows : List DataGridRow) : Bool :=
  let rows := getSelectionEnabledRows allRows
  if rows.length ≠ 0 then allTrueOnKey rows else false

/-- updateRows (DataGrid.tsx lines 341-372): reassigns row ids, recomputes the
pagination footer when pagination exists and a totalItems value was supplied
(resetting currentPage to 1 when it exceeds the new totalPages), and recomputes
the selectAll aggregate. -/
def updateRows (s : DataGridState) (rows : List DataGridRow) (totalItems : Option Int) :
    DataGridState :=
  let updatedRows := updateRowIDs rows
  let pagination :=
    match s.pagination, totalItems with
    | some pg, some t =>
      let totalPages := getTotalPages t pg.pageSize
      let currentPage := if pg.currentPage > totalPages then 1 else pg.currentPage
      let firstItem := getFirstItemIndex currentPage pg.pageSize
      let lastItem := getLastItemIndex pg.pageSize t firstItem
      some { pg with
        totalPages := totalPages
        currentPage := currentPage
        firstItem := firstItem
        lastItem := lastItem
        totalItems := t }
    | pgOpt, _ => pgOpt
  { s with
    allRows := updatedRows
    selectAll := isAllRowsSelected updatedRows
    pagination := pagination }

/-- The totalPages bound used by getPage for clamping (DataGrid.tsx lines
533-536): recomputed for the requested pageSize when it differs from the stored
one, otherwise the stored totalPages. -/
def getPageClampBound (pg : DataGridPaginationState) (pageSize : Int) : Int :=
  if pg.pageSize ≠ pageSize then getTotalPages pg.totalItems pageSize else pg.totalPages

/-- The two sequential clamps getPage applies to the requested page
(DataGrid.tsx lines 538-546): set it to the last page when it exceeds a nonzero
totalPages bound (the JS guard pageIndex > totalPages && totalPages skips the
upper clamp when totalPages is 0, which is falsy), then raise it to 1 when it
is below 1. -/
def pageClamp (requestedPage totalPages : Int) : Int :=
  let pageIndex := if requestedPage > totalPages ∧ totalPages ≠ 0 then totalPages
    else requestedPage
  if pageIndex < 1 then 1 else pageIndex

/-- getPage (DataGrid.tsx lines 528-577).  showLoader runs first whenever both
the state and the props carry pagination; the requested page is clamped as in
pageClamp; only when a getPageData callback exists are the pagination fields,
rows and selectAll updated and the loader hidden again.  fetchedData stands for
the rows the getPageData promise resolves with. -/
def getPage (pagProps : Option DataGridPaginationProps) (s : DataGridState)
    (requestedPage pageSize : Int) (fetchedData : List DataGridRow) : DataGridState :=
  match s.pagination, pagProps with
  | some pg, some props =>
    let s1 := { s with isLoading := true }
    let totalItems := pg.totalItems
    let totalPages := getPageClampBound pg pageSize
    let pageIndex := pageClamp requestedPage totalPages
    if props.hasGetPageData then
      let firstItem := getFirstItemIndex pageIndex pageSize
      let lastItem := getLastItemIndex pageSize totalItems firstItem
      let paginationState := { pg with
        pageSize := if pg.pageSize ≠ pageSize then pageSize else pg.pageSize
        currentPage := pageIndex
        firstItem := firstItem
        lastItem := lastItem
        totalPages := getTotalPages totalItems pageSize }
      let rows := updateRowIDs fetchedData
      { s1 with
        allRows := rows
        pagination := some paginationState
        selectAll := isAllRowsSelected rows
        isLoading := false }
    else s1
  | _, _ => s

/-- Observable effect of the page-index input handler. -/
inductive PageInputEffect where
  | noAction
  | revertInput (shown : Int)
  | fetchPage (pageIndex pageSize : Int)
deriving DecidableEq

/-- Decimal digit run parser used to model the JS parseInt builtin. -/
def parseDigits (cs : List Char) : Option Nat :=
  let ds := cs.takeWhile Char.isDigit
  if ds.isEmpty then Option.none
  else some (ds.foldl (fun acc c => acc * 10 + (c.toNat - 48)) 0)

/-- Whitespace characters skipped by the JS parseInt builtin. -/
def isJsWhitespace (c : Char) : Bool :=
  c == ' ' || c == '\t' || c == '\n' || c == '\r'

/-- Model of the JS builtin parseInt(text) in base 10: skip leading whitespace,
accept an optional sign, read the leading digit run; Option.none stands for the
NaN result when no digits are found.  (The hexadecimal 0x prefix form of
parseInt is not modelled; page-index input is decimal.) -/
def parseIntJS (text : String) : Option Int :=
  let cs := text.data.dropWhile isJsWhitespace
  match cs with
  | '-' :: rest => (parseDigits rest).map fun n => -(n : Int)
  | '+' :: rest => (parseDigits rest).map fun n => (n : Int)
  | _ => (parseDigits cs).map fun n => (n : Int)

/-- handlePageChange (DataGrid.tsx lines 514-525).  The JS code guards with
if (pageIndex), and both NaN and 0 are falsy, so a NaN parse result (and a
parsed 0) fall through with no action at all; the isNaN revert branch on lines
519-521 is unreachable, because inside the guard pageIndex can never be NaN.
The revertInput constructor exists to express what that dead branch would do;
no execution path produces it. -/
def handlePageChange (currentPage pageSize : Int) (text : String) : PageInputEffect :=
  match parseIntJS text with
  | Option.none => PageInputEffect.noAction
  | some pageIndex =>
    if pageIndex = 0 then PageInputEffect.noAction
    else PageInputEffect.fetchPage pageIndex pageSize

/-- toggleExpand (DataGrid.tsx lines 582-608).  When the row has no
expandableRowData nothing happens.  Otherwise isExpanded is negated (JS
negation of undefined gives true); if a loader is configured and the row is now
expanded, the loader is invoked (isLoading is set while it is pending) and its
resolved content is stored with isLoading cleared; otherwise only the flipped
flag is stored.  fetchedContent stands for the content the onRowExpand promise
resolves with; the returned Bool records whether the loader was invoked.
An out-of-range rowID would make the JS destructuring on line 584 throw; the
render wiring only passes indices of existing rows, and the model returns the
state unchanged there. -/
def toggleExpand (allRows : List DataGridRow) (rowID : Nat) (fetchedContent : Nat) :
    List DataGridRow × Bool :=
  match allRows[rowID]? with
  | Option.none => (allRows, false)
  | some row =>
    match row.expandableRowData with
    | Option.none => (allRows, false)
    | some erd0 =>
      let erd := { erd0 with isExpanded := some (!(erd0.isExpanded.getD false)) }
      if erd.onRowExpandId.isSome ∧ erd.isExpanded = some true then
        let erdFinal := { erd with
          isLoading := some false
          expandableContent := some fetchedContent }
        (allRows.set rowID { row with expandableRowData := some erdFinal }, true)
      else
        (allRows.set rowID { row with expandableRowData := some erd }, false)

/-- setSortingState (DataGrid.tsx lines 739-748): every incoming column that
declares a sort spec has it replaced by the sort spec of the same-named column
of the previous column set (undefined when there is no name match or the match
has no sort spec); incoming columns without a sort spec are left alone. -/
def setSortingState (allColumns : List DataGridColumn) (columns : List DataGridColumn) :
    List DataGridColumn :=
  columns.map fun column =>
    match column.sort with
    | some _ =>
      let col := allColumns.find? fun c => c.columnName == column.columnName
      { column with sort := col.bind fun c => c.sort }
    | Option.none => column

/-- updateColumns (DataGrid.tsx lines 375-394): applies visibility defaults,
carries sorting state forward by name, reassigns column ids.  (The
updateDataGridColumns listener notification is an external output.) -/
def updateColumns (s : DataGridState) (cols : List DataGridColumn) : DataGridState :=
  let columnsWithVisibility := setColumnVisibility cols
  let columnsWithSort := setSortingState s.allColumns columnsWithVisibility
  let updatedCols := updateColumnIDs columnsWithSort
  { s with allColumns := updatedCols }

/-- Next sort order computed by handleSort (DataGrid.tsx lines 670-673):
NONE and DESC transition to ASC, ASC transitions to DESC. -/
def nextSortOrder (defaultSortOrder : SortOrder) : SortOrder :=
  if defaultSortOrder = SortOrder.none ∨ defaultSortOrder = SortOrder.desc
  then SortOrder.asc else SortOrder.desc

/-- The clearing pass of handleSort (DataGrid.tsx lines 664-668): isSorted is
set to false on every column that has a sort spec. -/
def clearIsSorted (allColumns : List DataGridColumn) : List DataGridColumn :=
  allColumns.map fun col =>
    match col.sort with
    | some s => { col with sort := some { s with isSorted := some false } }
    | Option.none => col

/-- Column part of handleSort (DataGrid.tsx lines 653-689): when columnID is
defined, clear isSorted everywhere, then set the activated column to the next
sort order with isSorted true.  A columnID pointing at a column without a sort
spec would make the JS non-null assertion on line 679 throw; the render wiring
only activates columns that carry a sort spec, and the model leaves the cleared
columns unchanged there. -/
def handleSortColumns (allColumns : List DataGridColumn) (columnID : Option Nat)
    (defaultSortOrder : SortOrder) : List DataGridColumn :=
  match columnID with
  | Option.none => allColumns
  | some id =>
    let cleared := clearIsSorted allColumns
    match cleared[id]? with
    | some col =>
      match col.sort with
      | some s =>
        cleared.set id { col with sort := some { s with
          defaultSortOrder := nextSortOrder defaultSortOrder
          isSorted := some true } }
      | Option.none => cleared
    | Option.none => cleared

/-- handleSort (DataGrid.tsx lines 653-689) on the whole grid state: showLoader
runs first; when columnID is undefined nothing else happens (the loader stays
on); otherwise the sortFunction result replaces the rows (with fresh ids), the
columns are updated and the loader is hidden.  sortedData stands for the rows
the sortFunction promise resolves with. -/
def handleSort (s : DataGridState) (columnID : Option Nat) (defaultSortOrder : SortOrder)
    (sortedData : List DataGridRow) : DataGridState :=
  match columnID with
  | Option.none => { s with isLoading := true }
  | some _ =>
    { s with
      allRows := updateRowIDs sortedData
      allColumns := handleSortColumns s.allColumns columnID defaultSortOrder
      isLoading := false }

/-- A column currently flagged as the active sort column (isSorted true). -/
def isActiveSortColumn (col : DataGridColumn) : Bool :=
  match col.sort with
  | some s => s.isSorted == some true
  | Option.none => false

/-- Sort order currently stored at a column position, when that column exists
and has a sort spec. -/
def sortOrderAt (columns : List DataGridColumn) (i : Nat) : Option SortOrder :=
  (columns[i]?.bind DataGridColumn.sort).map DataGridSort.defaultSortOrder

/-- One user activation of the sort header of column i: the render wiring
(DataGrid.tsx line 981) passes the current sort.defaultSortOrder of the clicked
column to handleSort.  (The getD default is never used for a column that has a
sort spec, the only kind the render attaches the handler to.) -/
def activateSortAt (columns : List DataGridColumn) (i : Nat) : List DataGridColumn :=
  handleSortColumns columns (some i) ((sortOrderAt columns i).getD SortOrder.none)

/-- The sort spec handleSort stores on the activated column: the next sort
order, flagged active (DataGrid.tsx lines 679-680). -/
def activatedSpec (s : DataGridSort) : DataGridSort :=
  { s with
    defaultSortOrder := nextSortOrder s.defaultSortOrder
    isSorted := some true }

/-- Expandable content currently stored at a row position, when that row exists
and has expandable row data. -/
def expandableContentAt (rows : List DataGridRow) (i : Nat) : Option (Option Nat) :=
  (rows[i]?.bind DataGridRow.expandableRowData).map ExpandableRowDetails.expandableContent

/-- The pagination invariants claimed by the spec, with totalPages stated by
its ceiling characterisation instead of the source formula: totalPages is
nonnegative, covers totalItems, and is least with that property (so it is
ceil(totalItems / pageSize), which is 0 when totalItems is 0). -/
def paginationInvariant (pg : DataGridPaginationState) : Prop :=
  (0 < pg.totalItems → pg.firstItem = (pg.currentPage - 1) * pg.pageSize + 1) ∧
  pg.lastItem = min (pg.firstItem + pg.pageSize - 1) pg.totalItems ∧
  0 ≤ pg.totalPages ∧
  pg.totalItems ≤ pg.totalPages * pg.pageSize ∧
  (0 < pg.totalPages → (pg.totalPages - 1) * pg.pageSize < pg.totalItems)

/- Concrete fixtures used by witnesses and counterexamples. -/

/-- A grid state holding the given pagination sub-state and nothing else. -/
def stateWithPagination (pg : DataGridPaginationState) : DataGridState where
  selectAll := false
  allColumns := []
  allRows := []
  itemText := "items"
  pagination := some pg
  isLoading := false

/-- Pagination props whose getPageData callback is present. -/
def propsWithGetPageData : DataGridPaginationProps where
  currentPage := Option.none
  pageSize := Option.none
  totalItems := some 0
  pageSizes := Option.none
  compactFooter := Option.none
  hasGetPageData := true

/-- Pagination props whose getPageData callback is absent. -/
def propsWithoutGetPageData : DataGridPaginationProps where
  currentPage := Option.none
  pageSize := Option.none
  totalItems := some 25
  pageSizes := Option.none
  compactFooter := Option.none
  hasGetPageData := false

/-- The pagination state the constructor produces for totalItems = 0 with the
default pageSize of 10 (currentPage 1, firstItem 1, lastItem 0, totalPages 0). -/
def zeroItemsPagination : DataGridPaginationState where
  currentPage := 1
  pageSize := 10
  totalItems := 0
  firstItem := 1
  lastItem := 0
  totalPages := 0
  pageSizes := Option.none
  compactFooter := false

/-- The pagination state for 25 items at pageSize 10, on page 1 (3 pages). -/
def threePagesPagination : DataGridPaginationState where
  currentPage := 1
  pageSize := 10
  totalItems := 25
  firstItem := 1
  lastItem := 10
  totalPages := 3
  pageSizes := Option.none
  compactFooter := false

/-- Expandable details with a configured loader, collapsed, nothing fetched. -/
def collapsedLoaderDetails : ExpandableRowDetails where
  isLoading := Option.none
  onRowExpandId := some 7
  expandableContent := Option.none
  isExpanded := Option.none
  hideRowExpandIcon := Option.none

/-- Expandable details with a configured loader, currently expanded, holding
previously fetched content. -/
def expandedLoaderDetails : ExpandableRowDetails where
  isLoading := some false
  onRowExpandId := some 7
  expandableContent := some 11
  isExpanded := some true
  hideRowExpandIcon := Option.none

/-- A row with a configured expandable-content loader, initially collapsed and
with no content fetched yet. -/
def loaderRow : DataGridRow where
  rowData := []
  rowID := some 0
  isSelected := some false
  expandableRowData := some collapsedLoaderDetails
  disableRowSelection := Option.none

/-- A row with a configured loader that is currently expanded and holds
previously fetched content. -/
def expandedLoaderRow : DataGridRow where
  rowData := []
  rowID := some 0
  isSelected := some false
  expandableRowData := some expandedLoaderDetails
  disableRowSelection := Option.none

/-- A plain row without expandable row data. -/
def plainRow : DataGridRow where
  rowData := []
  rowID := some 0
  isSelected := some false
  expandableRowData := Option.none
  disableRowSelection := Option.none

/-- A sort spec as previously stored: ascending order, currently the active
sort column. -/
def priorSortSpecA : DataGridSort where
  defaultSortOrder := SortOrder.asc
  isSorted := some true
  sortFunctionId := 1

/-- A second previously stored sort spec. -/
def priorSortSpecB : DataGridSort where
  defaultSortOrder := SortOrder.desc
  isSorted := some false
  sortFunctionId := 2

/-- A freshly declared sort spec with default fields, as an incoming column
declaration would carry. -/
def incomingSortSpec : DataGridSort where
  defaultSortOrder := SortOrder.none
  isSorted := Option.none
  sortFunctionId := 3

/-- Previously stored column a, carrying priorSortSpecA. -/
def priorColA : DataGridColumn where
  columnName := "a"
  columnID := some 0
  sort := some priorSortSpecA
  isVisible := some true
  width := some 100

/-- Previously stored column b, carrying priorSortSpecB. -/
def priorColB : DataGridColumn where
  columnName := "b"
  columnID := some 1
  sort := some priorSortSpecB
  isVisible := some true
  width := some 100

/-- Previously stored column set: column a and column b both carry sort specs. -/
def priorColumns : List DataGridColumn :=
  [priorColA, priorColB]

/-- Incoming column a: declares a fresh sort spec, should inherit the stored
one. -/
def incomingColA : DataGridColumn where
  columnName := "a"
  columnID := Option.none
  sort := some incomingSortSpec
  isVisible := Option.none
  width := Option.none

/-- Incoming column b: declares no sort spec, should end with none although the
stored column b had one. -/
def incomingColB : DataGridColumn where
  columnName := "b"
  columnID := Option.none
  sort := Option.none
  isVisible := Option.none
  width := Option.none

/-- Incoming column c: declares a sort spec but has no name match among the
stored columns, should end with none. -/
def incomingColC : DataGridColumn where
  columnName := "c"
  columnID := Option.none
  sort := some incomingSortSpec
  isVisible := Option.none
  width := Option.none

/-- Incoming column set replacing priorColumns. -/
def incomingColumns : List DataGridColumn :=
  [incomingColA, incomingColB, incomingColC]

/-- A grid state holding the prior column set. -/
def stateWithPriorColumns : DataGridState where
  selectAll := false
  allColumns := priorColumns
  allRows := []
  itemText := "items"
  pagination := Option.none
  isLoading := false

/-- A sort spec whose current order is NONE. -/
def noneOrderSpec : DataGridSort where
  defaultSortOrder := SortOrder.none
  isSorted := some false
  sortFunctionId := 1

/-- A sortable column whose current order is NONE. -/
def noneOrderColumn : DataGridColumn where
  columnName := "a"
  columnID := some 0
  sort := some noneOrderSpec
  isVisible := some true
  width := some 100

/- ################# Theorems ################# -/

/-- Ceiling characterisation of getTotalPages for a positive pageSize and a
nonnegative item count: it is nonnegative, its pages cover all items, and one
page fewer would not (so it equals ceil(totalItems / pageSize)). -/
theorem getTotalPages_bounds {t p : Int} (hp : 1 ≤ p) (ht : 0 ≤ t) :
    0 ≤ getTotalPages t p ∧ t ≤ getTotalPages t p * p ∧
      (0 < getTotalPages t p → (getTotalPages t p - 1) * p < t) := by
  have hp0 : (0 : Int) < p := by linarith
  have heq : getTotalPages t p = (t + p - 1) / p := Int.fdiv_eq_ediv _ (le_of_lt hp0)
  have hmod := Int.ediv_add_emod (t + p - 1) p
  have h1 : (t + p - 1) % p < p := Int.emod_lt_of_pos _ hp0
  have h2 : 0 ≤ (t + p - 1) % p := Int.emod_nonneg _ (ne_of_gt hp0)
  have hcomm : ((t + p - 1) / p) * p = p * ((t + p - 1) / p) := mul_comm _ _
  refine ⟨?_, ?_, ?_⟩
  · rw [heq]
    exact Int.ediv_nonneg (by linarith) (le_of_lt hp0)
  · rw [heq]
    linarith
  · intro _
    rw [heq]
    have hexp : ((t + p - 1) / p - 1) * p = p * ((t + p - 1) / p) - p := by ring
    linarith

/-- C1 (amended): after pagination initialization, after every external
row/total-item replacement, and after every page fetch, the derived fields
satisfy firstItem = (currentPage - 1) * pageSize + 1 (when totalItems > 0),
lastItem = min(firstItem + pageSize - 1, totalItems), and totalPages =
ceil(totalItems / pageSize) with no minimum of 1: totalPages is 0, not 1, when
totalItems = 0. -/
theorem C1_pagination_invariant_holds :
    (∀ pg : DataGridPaginationState, 1 ≤ pg.pageSize → 0 ≤ pg.totalItems →
        paginationInvariant (setInitalStateForPagination pg)) ∧
    (∀ (s : DataGridState) (rows : List DataGridRow) (t : Int)
        (pg : DataGridPaginationState),
        s.pagination = some pg → 1 ≤ pg.pageSize → 0 ≤ t →
        ∃ pg2, (updateRows s rows (some t)).pagination = some pg2 ∧
          paginationInvariant pg2) ∧
    (∀ (props : DataGridPaginationProps) (s : DataGridState)
        (requestedPage pageSize : Int) (fetched : List DataGridRow)
        (pg : DataGridPaginationState),
        s.pagination = some pg → props.hasGetPageData = true → 1 ≤ pageSize →
        0 ≤ pg.totalItems →
        ∃ pg2, (getPage (some props) s requestedPage pageSize fetched).pagination = some pg2 ∧
          paginationInvariant pg2) := by
  refine ⟨?_, ?_, ?_⟩
  · intro pg hp ht
    obtain ⟨h1, h2, h3⟩ := getTotalPages_bounds hp ht
    unfold paginationInvariant setInitalStateForPagination getFirstItemIndex getLastItemIndex
    dsimp only
    exact ⟨fun _ => by ring, rfl, h1, h2, h3⟩
  · intro s rows t pg hpg hp ht
    obtain ⟨h1, h2, h3⟩ := getTotalPages_bounds (t := t) (p := pg.pageSize) hp ht
    simp only [updateRows, hpg]
    refine ⟨_, rfl, ?_⟩
    unfold paginationInvariant getFirstItemIndex getLastItemIndex
    dsimp only
    exact ⟨fun _ => by ring, rfl, h1, h2, h3⟩
  · intro props s requestedPage pageSize fetched pg hpg hprops hp ht
    obtain ⟨h1, h2, h3⟩ := getTotalPages_bounds (t := pg.totalItems) (p := pageSize) hp ht
    have hps : (if pg.pageSize ≠ pageSize then pageSize else pg.pageSize) = pageSize := by
      by_cases hc : pg.pageSize = pageSize <;> simp [hc]
    simp only [getPage, hpg, hprops, if_true, hps]
    refine ⟨_, rfl, ?_⟩
    unfold paginationInvariant getFirstItemIndex getLastItemIndex
    dsimp only
    exact ⟨fun _ => by ring, rfl, h1, h2, h3⟩

/-- Witness instantiating C1_pagination_invariant_holds at concrete inputs
(25 items, pageSize 10, page 1). -/
theorem C1_pagination_invariant_holds_witness :
    paginationInvariant (setInitalStateForPagination threePagesPagination) ∧
    ((updateRows (stateWithPagination threePagesPagination) [] (some 12)).pagination).isSome
      = true ∧
    ((getPage (some propsWithGetPageData) (stateWithPagination threePagesPagination)
        2 10 []).pagination).isSome = true := by
  refine ⟨C1_pagination_invariant_holds.1 threePagesPagination (by decide) (by decide), ?_, ?_⟩
  · obtain ⟨pg2, h, -⟩ := C1_pagination_invariant_holds.2.1
      (stateWithPagination threePagesPagination) [] 12 threePagesPagination rfl
      (by decide) (by decide)
    rw [h]
    rfl
  · obtain ⟨pg2, h, -⟩ := C1_pagination_invariant_holds.2.2 propsWithGetPageData
      (stateWithPagination threePagesPagination) 2 10 [] threePagesPagination rfl rfl
      (by decide) (by decide)
    rw [h]
    rfl

/-- Counterexample to C1 as stated: constructing the grid with totalItems = 0
(default pageSize 10) yields totalPages = 0 after initialization, not the
claimed minimum of 1. -/
theorem C1_counterexample :
    ¬ 1 ≤ (setInitalStateForPagination (initPaginationState propsWithGetPageData)).totalPages := by
  decide

/-- Arithmetic of the two sequential clamps of getPage: the result is at least
1 always; against a bound of at least 1 it lies in [1, bound], an over-request
resolves to the bound, an under-request to 1, and an in-range request to
itself; against a bound of 0 an in-range request passes through unclamped. -/
theorem pageClamp_spec (r T : Int) :
    1 ≤ pageClamp r T ∧
    (1 ≤ T →
      pageClamp r T ≤ T ∧
      (T < r → pageClamp r T = T) ∧
      (r < 1 → pageClamp r T = 1) ∧
      (1 ≤ r → r ≤ T → pageClamp r T = r)) ∧
    (T = 0 → 1 ≤ r → pageClamp r T = r) := by
  unfold pageClamp
  dsimp only
  split_ifs with h1 h2 h3 <;> omega

/-- C2 (amended): getPage always raises the requested page to at least 1; when
the clamp bound (the stored totalPages, recomputed for the requested pageSize
when it changed) is at least 1 the request is clamped into [1, bound]: page 5
against bound 3 resolves to 3, page 0 or negative resolves to 1, an in-range
page is kept; when the bound is 0 (zero items) the upper clamp is skipped and a
request of at least 1 passes through unclamped. -/
theorem C2_page_clamp_amended :
    ∀ (props : DataGridPaginationProps) (s : DataGridState) (requestedPage pageSize : Int)
      (fetched : List DataGridRow) (pg : DataGridPaginationState),
      s.pagination = some pg → props.hasGetPageData = true →
      ∃ pg2, (getPage (some props) s requestedPage pageSize fetched).pagination = some pg2 ∧
        1 ≤ pg2.currentPage ∧
        (1 ≤ getPageClampBound pg pageSize →
          pg2.currentPage ≤ getPageClampBound pg pageSize ∧
          (getPageClampBound pg pageSize < requestedPage →
            pg2.currentPage = getPageClampBound pg pageSize) ∧
          (requestedPage < 1 → pg2.currentPage = 1) ∧
          (1 ≤ requestedPage → requestedPage ≤ getPageClampBound pg pageSize →
            pg2.currentPage = requestedPage)) ∧
        (getPageClampBound pg pageSize = 0 → 1 ≤ requestedPage →
          pg2.currentPage = requestedPage) := by
  intro props s requestedPage pageSize fetched pg hpg hprops
  obtain ⟨ha, hb, hc⟩ := pageClamp_spec requestedPage (getPageClampBound pg pageSize)
  simp only [getPage, hpg, hprops, if_true]
  refine ⟨_, rfl, ?_, ?_, ?_⟩ <;> dsimp only
  · exact ha
  · intro hT
    exact hb hT
  · intro hT hr
    exact hc hT hr

/-- Witness instantiating C2_page_clamp_amended: with totalPages = 3, page 5
resolves to 3 and pages 0 and -2 resolve to 1. -/
theorem C2_page_clamp_amended_witness :
    ((getPage (some propsWithGetPageData) (stateWithPagination threePagesPagination)
        5 10 []).pagination.map DataGridPaginationState.currentPage) = some 3 ∧
    ((getPage (some propsWithGetPageData) (stateWithPagination threePagesPagination)
        0 10 []).pagination.map DataGridPaginationState.currentPage) = some 1 ∧
    ((getPage (some propsWithGetPageData) (stateWithPagination threePagesPagination)
        (-2) 10 []).pagination.map DataGridPaginationState.currentPage) = some 1 := by
  refine ⟨?_, ?_, ?_⟩
  · obtain ⟨pg2, h, -, hcl, -⟩ := C2_page_clamp_amended propsWithGetPageData
      (stateWithPagination threePagesPagination) 5 10 [] threePagesPagination rfl rfl
    obtain ⟨-, hover, -, -⟩ := hcl (by decide)
    have hcp := hover (by decide)
    have hmap : ((getPage (some propsWithGetPageData)
        (stateWithPagination threePagesPagination) 5 10 []).pagination.map
          DataGridPaginationState.currentPage) = some pg2.currentPage := by
      rw [h]
      rfl
    rw [hmap, hcp]
    decide
  · obtain ⟨pg2, h, -, hcl, -⟩ := C2_page_clamp_amended propsWithGetPageData
      (stateWithPagination threePagesPagination) 0 10 [] threePagesPagination rfl rfl
    obtain ⟨-, -, hunder, -⟩ := hcl (by decide)
    have hcp := hunder (by decide)
    have hmap : ((getPage (some propsWithGetPageData)
        (stateWithPagination threePagesPagination) 0 10 []).pagination.map
          DataGridPaginationState.currentPage) = some pg2.currentPage := by
      rw [h]
      rfl
    rw [hmap, hcp]
  · obtain ⟨pg2, h, -, hcl, -⟩ := C2_page_clamp_amended propsWithGetPageData
      (stateWithPagination threePagesPagination) (-2) 10 [] threePagesPagination rfl rfl
    obtain ⟨-, -, hunder, -⟩ := hcl (by decide)
    have hcp := hunder (by decide)
    have hmap : ((getPage (some propsWithGetPageData)
        (stateWithPagination threePagesPagination) (-2) 10 []).pagination.map
          DataGridPaginationState.currentPage) = some pg2.currentPage := by
      rw [h]
      rfl
    rw [hmap, hcp]

/-- Counterexample to C2 as stated: in the reachable zero-items state the clamp
bound is 0, so requesting page 5 resolves to page 5, outside [1, totalPages]. -/
theorem C2_counterexample :
    ((getPage (some propsWithGetPageData) (stateWithPagination zeroItemsPagination)
        5 10 []).pagination.map DataGridPaginationState.currentPage) = some 5 ∧
    ((getPage (some propsWithGetPageData) (stateWithPagination zeroItemsPagination)
        5 10 []).pagination.map DataGridPaginationState.totalPages) = some 0 := by
  decide

/-- C4 (amended): when pagination is configured without a getPageData callback,
getPage changes no pagination, row or selection state and throws no exception,
but it does turn the loading indicator on (and nothing turns it off again). -/
theorem C4_missing_getPageData_amended :
    ∀ (props : DataGridPaginationProps) (s : DataGridState) (requestedPage pageSize : Int)
      (fetched : List DataGridRow) (pg : DataGridPaginationState),
      s.pagination = some pg → props.hasGetPageData = false →
      getPage (some props) s requestedPage pageSize fetched = { s with isLoading := true } := by
  intro props s requestedPage pageSize fetched pg hpg hprops
  simp [getPage, hpg, hprops]

/-- Witness instantiating C4_missing_getPageData_amended at a concrete state. -/
theorem C4_missing_getPageData_amended_witness :
    getPage (some propsWithoutGetPageData) (stateWithPagination threePagesPagination) 2 10 []
      = { stateWithPagination threePagesPagination with isLoading := true } :=
  C4_missing_getPageData_amended propsWithoutGetPageData
    (stateWithPagination threePagesPagination) 2 10 [] threePagesPagination rfl rfl

/-- Counterexample to C4 as stated: with getPageData absent, a page request
still flips the loading flag on, so state changes and the loading indicator is
shown, contrary to the claimed complete no-op. -/
theorem C4_counterexample :
    (stateWithPagination threePagesPagination).isLoading = false ∧
    (getPage (some propsWithoutGetPageData) (stateWithPagination threePagesPagination)
        2 10 []).isLoading = true := by
  decide

/-- C3 (amended): for a row whose expandable details carry a loader, every
transition to expanded invokes the loader and stores the freshly fetched
content (overwriting any previous content); a transition to collapsed does not
invoke the loader and retains the stored content. -/
theorem C3_expansion_loader_amended :
    ∀ (rows : List DataGridRow) (i : Nat) (row : DataGridRow) (erd : ExpandableRowDetails)
      (c : Nat),
      rows[i]? = some row → row.expandableRowData = some erd →
      erd.onRowExpandId.isSome = true →
      ((erd.isExpanded.getD false = false →
          (toggleExpand rows i c).2 = true ∧
          expandableContentAt (toggleExpand rows i c).1 i = some (some c)) ∧
       (erd.isExpanded = some true →
          (toggleExpand rows i c).2 = false ∧
          expandableContentAt (toggleExpand rows i c).1 i = some erd.expandableContent)) := by
  intro rows i row erd c hrow herd hload
  have hlen : i < rows.length := (List.getElem?_eq_some_iff.mp hrow).1
  constructor
  · intro hcol
    have hflip : (!(erd.isExpanded.getD false)) = true := by
      rw [hcol]
      rfl
    have hcond : (({ erd with isExpanded := some (!(erd.isExpanded.getD false)) } :
        ExpandableRowDetails).onRowExpandId.isSome ∧
        ({ erd with isExpanded := some (!(erd.isExpanded.getD false)) } :
          ExpandableRowDetails).isExpanded = some true) := by
      refine ⟨hload, ?_⟩
      rw [hflip]
    constructor
    · simp only [toggleExpand, hrow, herd, if_pos hcond]
    · simp only [toggleExpand, hrow, herd, if_pos hcond, expandableContentAt,
        List.getElem?_set_self hlen, Option.bind_some]
      rfl
  · intro hexp
    have hncond : ¬ (({ erd with isExpanded := some (!(erd.isExpanded.getD false)) } :
        ExpandableRowDetails).onRowExpandId.isSome ∧
        ({ erd with isExpanded := some (!(erd.isExpanded.getD false)) } :
          ExpandableRowDetails).isExpanded = some true) := by
      rw [hexp]
      simp
    constructor
    · simp only [toggleExpand, hrow, herd, if_neg hncond]
    · simp only [toggleExpand, hrow, herd, if_neg hncond, expandableContentAt,
        List.getElem?_set_self hlen, Option.bind_some]
      rfl

/-- Witness instantiating C3_expansion_loader_amended: expanding the collapsed
loader row invokes the loader and stores content 21; collapsing the expanded
loader row does not invoke the loader and keeps content 11. -/
theorem C3_expansion_loader_amended_witness :
    (toggleExpand [loaderRow] 0 21).2 = true ∧
    expandableContentAt (toggleExpand [loaderRow] 0 21).1 0 = some (some 21) ∧
    (toggleExpand [expandedLoaderRow] 0 22).2 = false ∧
    expandableContentAt (toggleExpand [expandedLoaderRow] 0 22).1 0 = some (some 11) := by
  have h1 := (C3_expansion_loader_amended [loaderRow] 0 loaderRow collapsedLoaderDetails 21
    rfl rfl rfl).1 (by decide)
  have h2 := (C3_expansion_loader_amended [expandedLoaderRow] 0 expandedLoaderRow
    expandedLoaderDetails 22 rfl rfl rfl).2 rfl
  exact ⟨h1.1, h1.2, h2.1, h2.2⟩

/-- Counterexample to C3 as stated: expanding the loader row (loader invoked),
collapsing it, and expanding it again invokes the loader a second time; fetched
content is not treated as a cache. -/
theorem C3_counterexample :
    (toggleExpand [loaderRow] 0 31).2 = true ∧
    (toggleExpand (toggleExpand [loaderRow] 0 31).1 0 32).2 = false ∧
    (toggleExpand (toggleExpand (toggleExpand [loaderRow] 0 31).1 0 32).1 0 33).2
      = true := by
  decide

/-- C10: toggling a row that exists but has no expandableRowData leaves the row
list unchanged and does not invoke any loader. -/
theorem C10_toggleExpand_no_expandable_noop :
    ∀ (allRows : List DataGridRow) (rowID : Nat) (row : DataGridRow) (content : Nat),
      allRows[rowID]? = some row → row.expandableRowData = Option.none →
      toggleExpand allRows rowID content = (allRows, false) := by
  intro allRows rowID row content hrow herd
  simp only [toggleExpand, hrow, herd]

/-- Witness instantiating C10_toggleExpand_no_expandable_noop on a one-row
grid. -/
theorem C10_toggleExpand_no_expandable_noop_witness :
    toggleExpand [plainRow] 0 5 = ([plainRow], false) :=
  C10_toggleExpand_no_expandable_noop [plainRow] 0 plainRow 5 rfl rfl

/-- C5 evaluation at the failing inputs: the page-index handler takes no action
at all on the non-numeric input abc (in particular it does not revert the
visible input to the current page 2) and none on the numeric input 0; a nonzero
numeric input such as 12 is delegated to the page fetch. -/
theorem C5_page_input_evaluation :
    handlePageChange 2 10 "abc" = PageInputEffect.noAction ∧
    handlePageChange 2 10 "abc" ≠ PageInputEffect.revertInput 2 ∧
    handlePageChange 2 10 "0" = PageInputEffect.noAction ∧
    handlePageChange 2 10 "12" = PageInputEffect.fetchPage 12 10 := by
  decide

/-- A row passes the selection-eligibility filter exactly when its
disableRowSelection flag is not the value true (absent and false are falsy). -/
theorem selectionEligible_iff (row : DataGridRow) :
    ((!(row.disableRowSelection.getD false)) = true) ↔
      row.disableRowSelection ≠ some true := by
  rcases h : row.disableRowSelection with - | b
  · simp [h]
  · cases b <;> simp [h]

/-- C9: the all-selected aggregate is true exactly when the set of
selection-eligible rows (disableRowSelection absent or false) is non-empty and
every eligible row is selected; with no eligible rows it is false. -/
theorem C9_isAllRowsSelected_iff :
    ∀ allRows : List DataGridRow,
      isAllRowsSelected allRows = true ↔
        ((∃ row, row ∈ allRows ∧ row.disableRowSelection ≠ some true) ∧
         (∀ row, row ∈ allRows → row.disableRowSelection ≠ some true →
            row.isSelected = some true)) := by
  intro allRows
  unfold isAllRowsSelected getSelectionEnabledRows allTrueOnKey
  dsimp only
  by_cases hlen :
      (allRows.filter fun row => !(row.disableRowSelection.getD false)).length ≠ 0
  · rw [if_pos hlen, List.all_eq_true]
    constructor
    · intro hall
      constructor
      · have hne : (allRows.filter fun row => !(row.disableRowSelection.getD false)) ≠ [] := by
          intro hnil
          rw [hnil] at hlen
          exact hlen rfl
        obtain ⟨x, hx⟩ := List.exists_mem_of_ne_nil _ hne
        obtain ⟨hmem, hp⟩ := List.mem_filter.mp hx
        exact ⟨x, hmem, (selectionEligible_iff x).mp hp⟩
      · intro row hmem helig
        have hp : (!(row.disableRowSelection.getD false)) = true :=
          (selectionEligible_iff row).mpr helig
        have hmemf : row ∈ allRows.filter (fun row => !(row.disableRowSelection.getD false)) :=
          List.mem_filter.mpr ⟨hmem, hp⟩
        have hb := hall row hmemf
        exact beq_iff_eq.mp hb
    · rintro ⟨-, hall⟩ row hmemf
      obtain ⟨hmem, hp⟩ := List.mem_filter.mp hmemf
      have := hall row hmem ((selectionEligible_iff row).mp hp)
      exact beq_iff_eq.mpr this
  · rw [if_neg hlen]
    have hnil : (allRows.filter fun row => !(row.disableRowSelection.getD false)) = [] :=
      List.length_eq_zero.mp (not_not.mp hlen)
    simp only [Bool.false_eq_true, false_iff]
    rintro ⟨⟨row, hmem, helig⟩, -⟩
    have hmemf : row ∈ allRows.filter (fun row => !(row.disableRowSelection.getD false)) :=
      List.mem_filter.mpr ⟨hmem, (selectionEligible_iff row).mpr helig⟩
    rw [hnil] at hmemf
    exact List.not_mem_nil row hmemf

/-- After the clearing pass of handleSort no column is flagged as the active
sort column. -/
theorem clearIsSorted_countP (allColumns : List DataGridColumn) :
    (clearIsSorted allColumns).countP isActiveSortColumn = 0 := by
  rw [List.countP_eq_zero]
  intro a ha
  unfold clearIsSorted at ha
  obtain ⟨b, -, heq⟩ := List.mem_map.mp ha
  rcases hs : b.sort with - | s <;> rw [hs] at heq <;> rw [← heq] <;>
    simp [isActiveSortColumn, hs]

/-- Setting one position of a list with no element satisfying a predicate
leaves at most one satisfying element. -/
theorem countP_set_le_one {α : Type} (p : α → Bool) :
    ∀ (l : List α) (i : Nat) (x : α), l.countP p = 0 → (l.set i x).countP p ≤ 1 := by
  intro l
  induction l with
  | nil =>
    intro i x _
    simp [List.set]
  | cons a t ih =>
    intro i x h
    rw [List.countP_cons] at h
    have ht : t.countP p = 0 := by omega
    have ha : ¬ p a = true := by
      by_cases hpa : p a = true
      · rw [if_pos hpa] at h
        omega
      · exact hpa
    cases i with
    | zero =>
      rw [List.set_cons_zero, List.countP_cons, ht]
      split_ifs <;> omega
    | succ n =>
      rw [List.set_cons_succ, List.countP_cons, if_neg ha]
      have := ih n x ht
      omega

/-- The column pass of handleSort leaves at most one active sort column. -/
theorem handleSortColumns_countP_le_one (allColumns : List DataGridColumn) (cid : Nat)
    (defaultSortOrder : SortOrder) :
    (handleSortColumns allColumns (some cid) defaultSortOrder).countP
      isActiveSortColumn ≤ 1 := by
  unfold handleSortColumns
  dsimp only
  split
  · split
    · exact countP_set_le_one isActiveSortColumn (clearIsSorted allColumns) cid _
        (clearIsSorted_countP allColumns)
    · simp [clearIsSorted_countP]
  · simp [clearIsSorted_countP]

/-- The column pass of handleSort flags the activated column (one that exists
and carries a sort spec) as the active sort column. -/
theorem handleSortColumns_sets_active :
    ∀ (cols : List DataGridColumn) (cid : Nat) (o : SortOrder) (col : DataGridColumn)
      (sp : DataGridSort),
      cols[cid]? = some col → col.sort = some sp →
      ∃ col2, (handleSortColumns cols (some cid) o)[cid]? = some col2 ∧
        isActiveSortColumn col2 = true := by
  intro cols cid o col sp hi hs
  have hlen : cid < cols.length := (List.getElem?_eq_some_iff.mp hi).1
  have hlen2 : cid < (clearIsSorted cols).length := by
    unfold clearIsSorted
    rw [List.length_map]
    exact hlen
  have hclear : (clearIsSorted cols)[cid]? =
      some { col with sort := some { sp with isSorted := some false } } := by
    unfold clearIsSorted
    rw [List.getElem?_map, hi]
    simp [hs]
  unfold handleSortColumns
  dsimp only
  rw [hclear]
  dsimp only
  refine ⟨_, List.getElem?_set_self hlen2, ?_⟩
  simp [isActiveSortColumn]

/-- C7: after any sort activation (handleSort with a defined columnID) at most
one column carries the active-sort flag isSorted = true; and when the activated
column exists and carries a sort spec, it ends flagged active (so the flag sits
only on the activated column). -/
theorem C7_sort_exclusivity :
    (∀ (s : DataGridState) (cid : Nat) (defaultSortOrder : SortOrder)
        (sortedData : List DataGridRow),
        ((handleSort s (some cid) defaultSortOrder sortedData).allColumns).countP
          isActiveSortColumn ≤ 1) ∧
    (∀ (s : DataGridState) (cid : Nat) (defaultSortOrder : SortOrder)
        (sortedData : List DataGridRow) (col : DataGridColumn) (sp : DataGridSort),
        s.allColumns[cid]? = some col → col.sort = some sp →
        ∃ col2, (handleSort s (some cid) defaultSortOrder sortedData).allColumns[cid]?
          = some col2 ∧ isActiveSortColumn col2 = true) := by
  constructor
  · intro s cid defaultSortOrder sortedData
    unfold handleSort
    dsimp only
    exact handleSortColumns_countP_le_one s.allColumns cid defaultSortOrder
  · intro s cid defaultSortOrder sortedData col sp hi hs
    unfold handleSort
    dsimp only
    exact handleSortColumns_sets_active s.allColumns cid defaultSortOrder col sp hi hs

/-- Witness instantiating C7_sort_exclusivity: activating column 0 of the
stored two-column set leaves at most one active column and flags column 0
active. -/
theorem C7_sort_exclusivity_witness :
    ((handleSort stateWithPriorColumns (some 0) SortOrder.asc []).allColumns).countP
      isActiveSortColumn ≤ 1 ∧
    (((handleSort stateWithPriorColumns (some 0) SortOrder.asc []).allColumns[0]?).map
      isActiveSortColumn) = some true := by
  constructor
  · exact C7_sort_exclusivity.1 stateWithPriorColumns 0 SortOrder.asc []
  · obtain ⟨col2, h, hact⟩ := C7_sort_exclusivity.2 stateWithPriorColumns 0 SortOrder.asc []
      priorColA priorSortSpecA rfl rfl
    have hmap : (((handleSort stateWithPriorColumns (some 0) SortOrder.asc
        []).allColumns[0]?).map isActiveSortColumn) = some (isActiveSortColumn col2) := by
      rw [h]
      rfl
    rw [hmap, hact]

/-- Reading the stored sort order at a position through getElem and sort. -/
theorem sortOrderAt_of_getElem :
    ∀ (cols : List DataGridColumn) (i : Nat) (col : DataGridColumn) (s : DataGridSort),
      cols[i]? = some col → col.sort = some s →
      sortOrderAt cols i = some s.defaultSortOrder := by
  intro cols i col s hi hs
  unfold sortOrderAt
  simp [hi, hs]

/-- One sort activation of a column that carries a sort spec stores the next
sort order with the active flag set, at the same position. -/
theorem activateSortAt_step :
    ∀ (cols : List DataGridColumn) (i : Nat) (col : DataGridColumn) (s : DataGridSort),
      cols[i]? = some col → col.sort = some s →
      ∃ col2, (activateSortAt cols i)[i]? = some col2 ∧
        col2.sort = some (activatedSpec s) := by
  intro cols i col s hi hs
  have hlen : i < cols.length := (List.getElem?_eq_some_iff.mp hi).1
  have hlen2 : i < (clearIsSorted cols).length := by
    unfold clearIsSorted
    rw [List.length_map]
    exact hlen
  have horder : sortOrderAt cols i = some s.defaultSortOrder :=
    sortOrderAt_of_getElem cols i col s hi hs
  have hclear : (clearIsSorted cols)[i]? =
      some { col with sort := some { s with isSorted := some false } } := by
    unfold clearIsSorted
    rw [List.getElem?_map, hi]
    simp [hs]
  unfold activateSortAt
  rw [horder]
  unfold handleSortColumns
  dsimp only
  rw [hclear]
  dsimp only
  refine ⟨_, List.getElem?_set_self hlen2, ?_⟩
  unfold activatedSpec
  rfl

/-- C8: activating a sortable column whose current order is NONE or DESCENDING
stores ASCENDING, activating one whose current order is ASCENDING stores
DESCENDING; hence from NONE three successive activations store ASCENDING, then
DESCENDING, then ASCENDING again. -/
theorem C8_sort_order_toggle :
    ∀ (cols : List DataGridColumn) (i : Nat) (col : DataGridColumn) (s : DataGridSort),
      cols[i]? = some col → col.sort = some s →
      ((s.defaultSortOrder = SortOrder.none ∨ s.defaultSortOrder = SortOrder.desc →
          sortOrderAt (activateSortAt cols i) i = some SortOrder.asc) ∧
       (s.defaultSortOrder = SortOrder.asc →
          sortOrderAt (activateSortAt cols i) i = some SortOrder.desc) ∧
       (s.defaultSortOrder = SortOrder.none →
          sortOrderAt (activateSortAt cols i) i = some SortOrder.asc ∧
          sortOrderAt (activateSortAt (activateSortAt cols i) i) i = some SortOrder.desc ∧
          sortOrderAt (activateSortAt (activateSortAt (activateSortAt cols i) i) i) i
            = some SortOrder.asc)) := by
  intro cols i col s hi hs
  obtain ⟨col2, h2i, h2s⟩ := activateSortAt_step cols i col s hi hs
  obtain ⟨col3, h3i, h3s⟩ := activateSortAt_step _ i col2 _ h2i h2s
  obtain ⟨col4, h4i, h4s⟩ := activateSortAt_step _ i col3 _ h3i h3s
  have horder1 := sortOrderAt_of_getElem _ i col2 _ h2i h2s
  have horder2 := sortOrderAt_of_getElem _ i col3 _ h3i h3s
  have horder3 := sortOrderAt_of_getElem _ i col4 _ h4i h4s
  refine ⟨?_, ?_, ?_⟩
  · intro h
    rw [horder1]
    show some (nextSortOrder s.defaultSortOrder) = some SortOrder.asc
    rcases h with h | h <;> rw [h] <;> decide
  · intro h
    rw [horder1]
    show some (nextSortOrder s.defaultSortOrder) = some SortOrder.desc
    rw [h]
    decide
  · intro h
    refine ⟨?_, ?_, ?_⟩
    · rw [horder1]
      show some (nextSortOrder s.defaultSortOrder) = some SortOrder.asc
      rw [h]
      decide
    · rw [horder2]
      show some (nextSortOrder (nextSortOrder s.defaultSortOrder)) = some SortOrder.desc
      rw [h]
      decide
    · rw [horder3]
      show some (nextSortOrder (nextSortOrder (nextSortOrder s.defaultSortOrder)))
        = some SortOrder.asc
      rw [h]
      decide

/-- Witness instantiating C8_sort_order_toggle on a single sortable column with
current order NONE: three activations store ASC, DESC, ASC. -/
theorem C8_sort_order_toggle_witness :
    sortOrderAt (activateSortAt [noneOrderColumn] 0) 0 = some SortOrder.asc ∧
    sortOrderAt (activateSortAt (activateSortAt [noneOrderColumn] 0) 0) 0
      = some SortOrder.desc ∧
    sortOrderAt (activateSortAt (activateSortAt (activateSortAt [noneOrderColumn] 0) 0) 0) 0
      = some SortOrder.asc :=
  (C8_sort_order_toggle [noneOrderColumn] 0 noneOrderColumn noneOrderSpec rfl rfl).2.2 rfl

/-- C6: in a column-set replacement, an incoming column that declares a sort
spec ends with exactly the spec previously stored for the same-named prior
column (preserving the stored currentOrder and active flag, and dropping to
none when the prior match has no spec), an incoming column without a sort spec
keeps none even when the prior same-named column had one, and an incoming
column with a sort spec but no name match ends with none. -/
theorem C6_sort_carry_forward :
    ∀ (s : DataGridState) (cols : List DataGridColumn) (j : Nat) (c : DataGridColumn),
      cols[j]? = some c →
      ∃ c2, (updateColumns s cols).allColumns[j]? = some c2 ∧
        (∀ sp, c.sort = some sp →
          (∀ cp, s.allColumns.find? (fun pc => pc.columnName == c.columnName) = some cp →
            c2.sort = cp.sort) ∧
          (s.allColumns.find? (fun pc => pc.columnName == c.columnName) = Option.none →
            c2.sort = Option.none)) ∧
        (c.sort = Option.none → c2.sort = c.sort) := by
  intro s cols j c hj
  simp only [updateColumns, updateColumnIDs, setSortingState, setColumnVisibility,
    List.getElem?_mapIdx, List.getElem?_map, hj, Option.map_some']
  refine ⟨_, rfl, ?_, ?_⟩
  · intro sp hsp
    simp only [hsp]
    constructor
    · intro cp hcp
      simp [hcp]
    · intro hnone
      simp [hnone]
  · intro hnone
    simp only [hnone]

/-- Witness instantiating C6_sort_carry_forward on the concrete column
replacement: incoming a inherits the stored spec of prior a, incoming b (no
declared spec) stays none although prior b had one, incoming c (no name match)
ends with none. -/
theorem C6_sort_carry_forward_witness :
    ((updateColumns stateWithPriorColumns incomingColumns).allColumns[0]?).map
      DataGridColumn.sort = some (some priorSortSpecA) ∧
    ((updateColumns stateWithPriorColumns incomingColumns).allColumns[1]?).map
      DataGridColumn.sort = some Option.none ∧
    ((updateColumns stateWithPriorColumns incomingColumns).allColumns[2]?).map
      DataGridColumn.sort = some Option.none := by
  refine ⟨?_, ?_, ?_⟩
  · obtain ⟨c2, h, hsome, -⟩ := C6_sort_carry_forward stateWithPriorColumns incomingColumns 0
      incomingColA rfl
    obtain ⟨hfound, -⟩ := hsome incomingSortSpec rfl
    have hc2 := hfound priorColA (by decide)
    have hmap : ((updateColumns stateWithPriorColumns incomingColumns).allColumns[0]?).map
        DataGridColumn.sort = some c2.sort := by
      rw [h]
      rfl
    rw [hmap, hc2]
    rfl
  · obtain ⟨c2, h, -, hnone⟩ := C6_sort_carry_forward stateWithPriorColumns incomingColumns 1
      incomingColB rfl
    have hc2 := hnone rfl
    have hmap : ((updateColumns stateWithPriorColumns incomingColumns).allColumns[1]?).map
        DataGridColumn.sort = some c2.sort := by
      rw [h]
      rfl
    rw [hmap, hc2]
    rfl
  · obtain ⟨c2, h, hsome, -⟩ := C6_sort_carry_forward stateWithPriorColumns incomingColumns 2
      incomingColC rfl
    obtain ⟨-, hnomatch⟩ := hsome incomingSortSpec rfl
    have hc2 := hnomatch (by decide)
    have hmap : ((updateColumns stateWithPriorColumns incomingColumns).allColumns[2]?).map
        DataGridColumn.sort = some c2.sort := by
      rw [h]
      rfl
    rw [hmap, hc2]
